import Mathlib

/-!
Verification of the port-scanner core (`src/core/port_scanner.py` and
`src/core/service_detector.py`) against its natural-language specification.

The Python code is shallowly embedded: the network is a parameter (a function
from the connection parameters to the socket-layer outcome), the
non-deterministic completion order of the worker threads is a parameter
(`arrival`, a permutation of the requested ports), and the messages printed by
the probes are collected into a list.
-/

namespace PortScan

/-- Outcome of one low-level TCP connect attempt (`sock.connect_ex` inside
`PortScanner.tcp_scan`): the connection is established (`connect_ex` returns 0),
it is refused or times out (nonzero return), the hostname cannot be resolved
(`socket.gaierror` is raised), or another socket error is raised
(`socket.error`). -/
inductive ProbeOutcome where
  | connected : ProbeOutcome
  | refused : ProbeOutcome
  | gaierror : ProbeOutcome
  | sockError : ProbeOutcome
deriving DecidableEq, Repr

/-- The state built by `PortScanner.__init__`: target, port list, per-connection
timeout and configured thread count.  The constructor performs no validation of
any field. -/
structure Scanner where
  target : String
  ports : List Nat
  timeout : Int
  threads : Int
deriving DecidableEq, Repr

/-- The result dictionary returned by `PortScanner.scan` (the timing fields,
which depend on the wall clock, are omitted; the error lines printed by the
per-port probes are collected in `errors`). -/
structure ScanResult where
  target : String
  open_ports : List Nat
  total_ports_scanned : Nat
  errors : List String
deriving DecidableEq, Repr

/-- `PortScanner.tcp_scan`: probe one port.  The network is modelled by `net`,
mapping the configured timeout and the port to the socket-layer outcome.
Returns whether the port is open together with the error lines printed.
`socket.gaierror` and `socket.error` are each caught, print one line, and
return `False`; neither aborts anything. -/
def tcp_scan (s : Scanner) (net : Int → Nat → ProbeOutcome) (port : Nat) :
    Bool × List String :=
  match net s.timeout port with
  | .connected => (true, [])
  | .refused => (false, [])
  | .gaierror => (false, ["[-] Hostname could not be resolved"])
  | .sockError => (false, ["[-] Could not connect to server"])

/-- The number of worker threads `PortScanner.scan` creates:
`min(self.threads, len(self.ports))`. -/
def numWorkers (s : Scanner) : Int :=
  min s.threads (s.ports.length : Int)

/-- `PortScanner.scan`: every requested port is probed exactly once by some
worker; `arrival` is the order in which the probes complete, a permutation of
`s.ports` chosen by the scheduler.  Each worker appends an open port to the
shared `open_ports` list under the lock, so after the final join `open_ports`
holds the open ports in arrival order; `scan` then sorts it ascending
(`self.open_ports.sort()`) and returns the result dictionary.  There is no
validation and no abort path: the function is total. -/
def scan (s : Scanner) (net : Int → Nat → ProbeOutcome) (arrival : List Nat) :
    ScanResult :=
  { target := s.target
    open_ports :=
      List.insertionSort (· ≤ ·) (arrival.filter fun p => (tcp_scan s net p).1)
    total_ports_scanned := s.ports.length
    errors := (arrival.map fun p => (tcp_scan s net p).2).flatten }

end PortScan

namespace ServiceDetect

/-- One entry of the service database (`{"service": ..., "description": ...}`). -/
structure ServiceEntry where
  service : String
  description : String
deriving DecidableEq, Repr

/-- The service database: a JSON object mapping the port number written as a
decimal string to a `ServiceEntry` (`ServiceDetector.services_db`). -/
abbrev ServicesDb : Type := List (String × ServiceEntry)

/-- `ServiceDetector._get_default_services`: the built-in fallback table. -/
def _get_default_services : ServicesDb :=
  [("21", ⟨"FTP", "File Transfer Protocol"⟩),
   ("22", ⟨"SSH", "Secure Shell"⟩),
   ("23", ⟨"Telnet", "Telnet"⟩),
   ("25", ⟨"SMTP", "Simple Mail Transfer Protocol"⟩),
   ("53", ⟨"DNS", "Domain Name System"⟩),
   ("80", ⟨"HTTP", "Hypertext Transfer Protocol"⟩),
   ("110", ⟨"POP3", "Post Office Protocol v3"⟩),
   ("143", ⟨"IMAP", "Internet Message Access Protocol"⟩),
   ("443", ⟨"HTTPS", "HTTP Secure"⟩),
   ("3306", ⟨"MySQL", "MySQL Database"⟩),
   ("3389", ⟨"RDP", "Remote Desktop Protocol"⟩),
   ("5432", ⟨"PostgreSQL", "PostgreSQL Database"⟩),
   ("6379", ⟨"Redis", "Redis Database"⟩),
   ("8080", ⟨"HTTP-Proxy", "HTTP Alternate"⟩),
   ("8443", ⟨"HTTPS-Alt", "HTTPS Alternate"⟩),
   ("27017", ⟨"MongoDB", "MongoDB Database"⟩)]

/-- `ServiceDetector._load_services_db`: load `services.json`; the external
resource is `some db` when the file exists and parses, `none` when opening it
raises `FileNotFoundError`, in which case the built-in default table is
returned. -/
def _load_services_db (external : Option ServicesDb) : ServicesDb :=
  match external with
  | some db => db
  | none => _get_default_services

/-- The whitespace characters removed by Python's `str.strip()`. -/
def isPySpace (c : Char) : Bool :=
  c = ' ' || c = '\t' || c = '\n' || c = '\x0b' || c = '\x0c' || c = '\r'

/-- Python's `str.strip()`, applied to the decoded banner: remove leading and
trailing whitespace. -/
def py_strip (s : String) : String :=
  String.mk (((s.toList.dropWhile isPySpace).reverse.dropWhile isPySpace).reverse)

/-- Python's `str.lower()`, applied to the banner before marker matching. -/
def py_lower (s : String) : String :=
  String.mk (s.toList.map Char.toLower)

/-- Python's substring test `pat in s` on lists of characters. -/
def str_in_chars (pat : List Char) : List Char → Bool
  | [] => pat.isPrefixOf ([] : List Char)
  | c :: cs => pat.isPrefixOf (c :: cs) || str_in_chars pat cs

/-- Python's substring test `pat in s` on strings. -/
def str_in (pat s : String) : Bool :=
  str_in_chars pat.toList s.toList

/-- The network as seen by the banner probe of `ServiceDetector.grab_banner`:
whether the TCP connect to (target, port) succeeds, whether the subsequent
`send` of the generic probe line succeeds, and what `recv` yields — `none` when
`recv` raises, otherwise the received bytes decoded with `errors='ignore'`
(which never fails).  The response may depend on whether the probe line was
actually sent, hence the `Bool` argument to `recv`. -/
structure BannerNet where
  connect : String → Nat → Bool
  sendOk : String → Nat → Bool
  recv : String → Nat → Bool → Option String

/-- `ServiceDetector.grab_banner`: connect; try to send the generic request,
swallowing a send failure (`except: pass`) and continuing; receive and decode;
strip; return the banner if non-empty, else `None`.  Any exception escaping the
outer `try` (connect or recv failure) also yields `None`. -/
def grab_banner (net : BannerNet) (target : String) (port : Nat) :
    Option String :=
  if net.connect target port then
    match net.recv target port (net.sendOk target port) with
    | none => none
    | some raw =>
      let banner := py_strip raw
      if banner = "" then none else some banner
  else none

/-- The service-information dictionary built by
`ServiceDetector.detect_service`. -/
structure ServiceInfo where
  port : Nat
  service : String
  description : String
  banner : Option String
deriving DecidableEq, Repr

/-- `ServiceDetector.detect_service`: seed the record from the static table
when the port is present, then attempt a banner grab; a truthy (non-empty)
banner is stored and its lowercased text drives the first-match-wins
reclassification chain `ssh` / `http` or `html` / `ftp` / `smtp` / `mysql`,
which overwrites only the `service` field. -/
def detect_service (db : ServicesDb) (net : BannerNet) (target : String)
    (port : Nat) : ServiceInfo :=
  let port_str := toString port
  let base : ServiceInfo :=
    { port := port, service := "Unknown", description := "", banner := none }
  let service_info :=
    match List.lookup port_str db with
    | some entry =>
      { base with service := entry.service, description := entry.description }
    | none => base
  match grab_banner net target port with
  | none => service_info
  | some banner =>
    if banner = "" then service_info
    else
      let service_info := { service_info with banner := some banner }
      let banner_lower := py_lower banner
      if str_in "ssh" banner_lower then { service_info with service := "SSH" }
      else if str_in "http" banner_lower || str_in "html" banner_lower then
        { service_info with service := "HTTP" }
      else if str_in "ftp" banner_lower then { service_info with service := "FTP" }
      else if str_in "smtp" banner_lower then { service_info with service := "SMTP" }
      else if str_in "mysql" banner_lower then { service_info with service := "MySQL" }
      else service_info

/-- `ServiceDetector.detect_services`: one record per input port, in input
order. -/
def detect_services (db : ServicesDb) (net : BannerNet) (target : String)
    (ports : List Nat) : List ServiceInfo :=
  ports.map (detect_service db net target)

end ServiceDetect

namespace PortScan

/-- Concrete scanner used to exercise the theorems on inputs. -/
def wScanner : Scanner :=
  { target := "127.0.0.1", ports := [22, 80, 9999], timeout := 1, threads := 100 }

/-- Concrete network where ports 22 and 80 accept and everything else
refuses. -/
def wNet : Int → Nat → ProbeOutcome :=
  fun _ p => if p = 22 || p = 80 then .connected else .refused

/-- Concrete scanner with an unresolvable target. -/
def gaiScanner : Scanner :=
  { target := "no.such.host.invalid", ports := [1, 2], timeout := 1, threads := 100 }

/-- Network where every connect attempt raises `socket.gaierror`. -/
def gaiNet : Int → Nat → ProbeOutcome := fun _ _ => .gaierror

/-- Concrete scanner configured with a non-positive (zero) timeout. -/
def zeroTimeoutScanner : Scanner :=
  { target := "127.0.0.1", ports := [80], timeout := 0, threads := 100 }

/-- Network where a probe carried out with a non-positive timeout raises
`socket.error`, and any other probe connects. -/
def zeroTimeoutNet : Int → Nat → ProbeOutcome :=
  fun t _ => if t ≤ 0 then .sockError else .connected

/-- Auxiliary: flattening a map whose image is everywhere a singleton is the
map of the singletons' contents. -/
theorem flatten_map_singleton {α β : Type} (f : α → List β) (g : α → β)
    (l : List α) (h : ∀ a ∈ l, f a = [g a]) :
    (l.map f).flatten = l.map g := by
  induction l with
  | nil => rfl
  | cons a t ih =>
    simp only [List.map_cons, List.flatten_cons, h a (List.mem_cons_self a t),
      List.singleton_append]
    rw [ih fun x hx => h x (List.mem_cons_of_mem a hx)]

/-- C1: for a deduplicated, ascending requested port list, the `open_ports` of
the returned result are a subset of the requested ports, strictly ascending and
duplicate-free, whatever order the concurrent workers complete in. -/
theorem scan_open_ports_invariant (s : Scanner) (net : Int → Nat → ProbeOutcome)
    (arrival : List Nat) (hperm : arrival.Perm s.ports)
    (hsorted : s.ports.Sorted (· < ·)) :
    (scan s net arrival).open_ports ⊆ s.ports ∧
      (scan s net arrival).open_ports.Sorted (· < ·) ∧
      (scan s net arrival).open_ports.Nodup := by
  have hps : (List.insertionSort (· ≤ ·)
      (arrival.filter fun p => (tcp_scan s net p).1)).Perm
      (arrival.filter fun p => (tcp_scan s net p).1) :=
    List.perm_insertionSort _ _
  have hnodup : (scan s net arrival).open_ports.Nodup := by
    have h1 : arrival.Nodup := hperm.nodup_iff.mpr hsorted.nodup
    exact (hps.symm.nodup (h1.filter _))
  have hle : (scan s net arrival).open_ports.Sorted (· ≤ ·) :=
    List.sorted_insertionSort _ _
  refine ⟨?_, hle.lt_of_le hnodup, hnodup⟩
  intro x hx
  exact hperm.mem_iff.mp
    (List.mem_of_mem_filter (hps.mem_iff.mp hx))

/-- Witness for C1 at a concrete scan. -/
theorem scan_open_ports_invariant_witness :
    (scan wScanner wNet [9999, 80, 22]).open_ports ⊆ wScanner.ports ∧
      (scan wScanner wNet [9999, 80, 22]).open_ports.Sorted (· < ·) ∧
      (scan wScanner wNet [9999, 80, 22]).open_ports.Nodup :=
  scan_open_ports_invariant wScanner wNet [9999, 80, 22] (by decide) (by decide)

/-- C4: under a fixed deterministic network layer the sorted `open_ports` of a
scan do not depend on the completion order, so two runs of the identical scan
yield identical `open_ports`. -/
theorem scan_idempotent (s : Scanner) (net : Int → Nat → ProbeOutcome)
    (a₁ a₂ : List Nat) (h₁ : a₁.Perm s.ports) (h₂ : a₂.Perm s.ports) :
    (scan s net a₁).open_ports = (scan s net a₂).open_ports := by
  apply List.eq_of_perm_of_sorted (r := (· ≤ ·))
  · exact (List.perm_insertionSort _ _).trans
      (((h₁.filter _).trans (h₂.filter _).symm).trans
        (List.perm_insertionSort _ _).symm)
  · exact List.sorted_insertionSort _ _
  · exact List.sorted_insertionSort _ _

/-- Witness for C4: two runs with different completion orders. -/
theorem scan_idempotent_witness :
    (scan wScanner wNet [9999, 80, 22]).open_ports =
      (scan wScanner wNet [22, 80, 9999]).open_ports :=
  scan_idempotent wScanner wNet [9999, 80, 22] [22, 80, 9999]
    (by decide) (by decide)

/-- C2 counterexample: with an unresolvable target and two requested ports, the
resolution failure is reported twice — once per port, not exactly once — and a
complete (not aborted, not partial) ScanResult is still returned to the
caller. -/
theorem gaierror_counterexample :
    (scan gaiScanner gaiNet [1, 2]).errors =
      ["[-] Hostname could not be resolved", "[-] Hostname could not be resolved"] ∧
    (scan gaiScanner gaiNet [1, 2]).errors.length ≠ 1 ∧
    scan gaiScanner gaiNet [1, 2] =
      { target := "no.such.host.invalid", open_ports := [],
        total_ports_scanned := 2,
        errors := ["[-] Hostname could not be resolved",
                   "[-] Hostname could not be resolved"] } := by
  refine ⟨rfl, by decide, rfl⟩

/-- C2 (amended): when the target address cannot be resolved at the socket
layer, the failure is caught inside each per-port probe, reported once per
probed port, the port is treated as closed, and the scan runs to completion,
returning a ScanResult with an empty `open_ports`. -/
theorem gaierror_once_per_port (s : Scanner) (net : Int → Nat → ProbeOutcome)
    (arrival : List Nat) (h : ∀ p ∈ arrival, net s.timeout p = .gaierror) :
    (scan s net arrival).errors =
      (arrival.map fun _ => "[-] Hostname could not be resolved") ∧
    (scan s net arrival).errors.length = arrival.length ∧
    (scan s net arrival).open_ports = [] := by
  have hts : ∀ p ∈ arrival,
      tcp_scan s net p = (false, ["[-] Hostname could not be resolved"]) := by
    intro p hp
    unfold tcp_scan
    rw [h p hp]
  have herr : (scan s net arrival).errors =
      arrival.map fun _ => "[-] Hostname could not be resolved" := by
    show (arrival.map fun p => (tcp_scan s net p).2).flatten = _
    exact flatten_map_singleton _ _ arrival fun p hp => by rw [hts p hp]
  refine ⟨herr, by rw [herr]; exact List.length_map _ _, ?_⟩
  show List.insertionSort (· ≤ ·)
      (arrival.filter fun p => (tcp_scan s net p).1) = []
  have : (arrival.filter fun p => (tcp_scan s net p).1) = [] := by
    rw [List.filter_eq_nil_iff]
    intro p hp
    rw [hts p hp]
    exact Bool.false_ne_true
  rw [this]
  rfl

/-- Witness for the amended C2 at a concrete unresolvable scan. -/
theorem gaierror_once_per_port_witness :
    (scan gaiScanner gaiNet [1, 2]).errors =
      ([1, 2].map fun _ => "[-] Hostname could not be resolved") ∧
    (scan gaiScanner gaiNet [1, 2]).errors.length = [1, 2].length ∧
    (scan gaiScanner gaiNet [1, 2]).open_ports = [] :=
  gaierror_once_per_port gaiScanner gaiNet [1, 2] (fun _ _ => rfl)

/-- C3 counterexample: a scan configured with a non-positive (zero) timeout is
not rejected — the per-port probe runs (the socket-layer error line it prints
is the evidence of network I/O) and a normal ScanResult is returned; likewise
an empty port list yields a normal empty ScanResult rather than a rejection. -/
theorem no_config_rejection_counterexample :
    zeroTimeoutScanner.timeout ≤ 0 ∧
    scan zeroTimeoutScanner zeroTimeoutNet [80] =
      { target := "127.0.0.1", open_ports := [], total_ports_scanned := 1,
        errors := ["[-] Could not connect to server"] } ∧
    scan { target := "127.0.0.1", ports := [], timeout := 1, threads := 100 }
        zeroTimeoutNet [] =
      { target := "127.0.0.1", open_ports := [], total_ports_scanned := 0,
        errors := [] } := by
  refine ⟨by decide, rfl, rfl⟩

/-- C3 (amended): the scanning core performs no configuration validation — a
request with an empty port list (even one whose timeout and worker-pool size
are non-positive) is accepted and yields a normal ScanResult with empty
`open_ports` and zero ports scanned, rather than being rejected. -/
theorem scan_accepts_empty_ports (s : Scanner) (net : Int → Nat → ProbeOutcome)
    (h : s.ports = []) :
    scan s net [] =
      { target := s.target, open_ports := [], total_ports_scanned := 0,
        errors := [] } := by
  unfold scan
  rw [h]
  rfl

/-- Witness for the amended C3: empty port list together with a negative
timeout and a zero worker budget, all accepted. -/
theorem scan_accepts_empty_ports_witness :
    scan { target := "127.0.0.1", ports := [], timeout := -1, threads := 0 }
        zeroTimeoutNet [] =
      { target := "127.0.0.1", open_ports := [], total_ports_scanned := 0,
        errors := [] } :=
  scan_accepts_empty_ports
    { target := "127.0.0.1", ports := [], timeout := -1, threads := 0 }
    zeroTimeoutNet rfl

end PortScan


namespace ServiceDetect

/-- Concrete one-entry service table for exercising the theorems. -/
def sshTableDb : ServicesDb := [("22", ⟨"SSH", "Secure Shell"⟩)]

/-- Banner network where the connect succeeds, the send of the generic probe
line fails, and the read still returns a greeting the server sent
unprompted. -/
def sendFailNet : BannerNet :=
  { connect := fun _ _ => true
    sendOk := fun _ _ => false
    recv := fun _ _ _ => some "SSH-2.0-OpenSSH_8.9" }

/-- Banner network where the connect itself fails. -/
def noConnectNet : BannerNet :=
  { connect := fun _ _ => false
    sendOk := fun _ _ => true
    recv := fun _ _ _ => none }

/-- Banner network delivering a shell-protocol greeting. -/
def sshBannerNet : BannerNet :=
  { connect := fun _ _ => true
    sendOk := fun _ _ => true
    recv := fun _ _ _ => some "SSH-2.0-OpenSSH" }

/-- Banner network delivering a banner matching none of the markers. -/
def plainBannerNet : BannerNet :=
  { connect := fun _ _ => true
    sendOk := fun _ _ => true
    recv := fun _ _ _ => some "220 service ready" }

/-- Banner network delivering hypertext content without the literal marker of
the web protocol in it. -/
def htmlBannerNet : BannerNet :=
  { connect := fun _ _ => true
    sendOk := fun _ _ => true
    recv := fun _ _ _ => some "<html><body>hi</body></html>" }

/-- A banner returned by `grab_banner` is never the empty string: it is the
stripped response, returned only when non-empty. -/
theorem grab_banner_ne_empty (net : BannerNet) (t : String) (p : Nat)
    (b : String) (h : grab_banner net t p = some b) : b ≠ "" := by
  unfold grab_banner at h
  split at h
  · split at h
    · exact Option.noConfusion h
    · rename_i raw heq
      simp only at h
      split at h
      · exact Option.noConfusion h
      · rename_i hne
        obtain rfl := Option.some.inj h
        exact hne
  · exact Option.noConfusion h

/-- When the banner probe yields nothing, `detect_service` returns exactly the
table-seeded record. -/
theorem detect_service_of_no_banner (db : ServicesDb) (net : BannerNet)
    (t : String) (p : Nat) (h : grab_banner net t p = none) :
    detect_service db net t p =
      match List.lookup (toString p) db with
      | some e => { port := p, service := e.service,
                    description := e.description, banner := none }
      | none => { port := p, service := "Unknown", description := "",
                  banner := none } := by
  unfold detect_service
  rw [h]

/-- When the banner probe yields a banner, `detect_service` stores it and runs
the reclassification chain over the table-seeded record. -/
theorem detect_service_of_banner (db : ServicesDb) (net : BannerNet)
    (t : String) (p : Nat) (b : String) (h : grab_banner net t p = some b) :
    detect_service db net t p =
      (let si : ServiceInfo :=
        match List.lookup (toString p) db with
        | some e => { port := p, service := e.service,
                      description := e.description, banner := some b }
        | none => { port := p, service := "Unknown", description := "",
                    banner := some b }
      let bl := py_lower b
      if str_in "ssh" bl then { si with service := "SSH" }
      else if str_in "http" bl || str_in "html" bl then { si with service := "HTTP" }
      else if str_in "ftp" bl then { si with service := "FTP" }
      else if str_in "smtp" bl then { si with service := "SMTP" }
      else if str_in "mysql" bl then { si with service := "MySQL" }
      else si) := by
  have hne : b ≠ "" := grab_banner_ne_empty net t p b h
  unfold detect_service
  rw [h]
  simp only [if_neg hne]
  cases List.lookup (toString p) db <;> rfl

/-- The `banner` field of the returned record is exactly the captured
banner. -/
theorem detect_service_banner_eq (db : ServicesDb) (net : BannerNet)
    (t : String) (p : Nat) (b : String) (h : grab_banner net t p = some b) :
    (detect_service db net t p).banner = some b := by
  rw [detect_service_of_banner db net t p b h]
  simp only
  split
  · cases List.lookup (toString p) db <;> rfl
  split
  · cases List.lookup (toString p) db <;> rfl
  split
  · cases List.lookup (toString p) db <;> rfl
  split
  · cases List.lookup (toString p) db <;> rfl
  split
  · cases List.lookup (toString p) db <;> rfl
  cases List.lookup (toString p) db <;> rfl

/-- C5 counterexample: a probe whose send step fails is swallowed, but the
probe continues to the read and can still capture a banner — here the send
fails, the server's unprompted greeting is read, and the record's banner is
not absent, contradicting the claim that any failing step yields no banner. -/
theorem banner_despite_send_failure_counterexample :
    sendFailNet.sendOk "127.0.0.1" 22 = false ∧
    (detect_service sshTableDb sendFailNet "127.0.0.1" 22).banner =
      some "SSH-2.0-OpenSSH_8.9" ∧
    (detect_service sshTableDb sendFailNet "127.0.0.1" 22).banner ≠ none := by
  refine ⟨rfl, by decide, by decide⟩

/-- C5 (amended): a failure of the connect or read step of the banner probe
(or an empty response) is swallowed without raising, and the ServiceRecord for
a port present in the static table keeps the table's name and description with
an absent banner; a send failure alone is also swallowed but the probe
continues to the read and may still capture a banner. -/
theorem table_values_kept_on_probe_failure (db : ServicesDb) (net : BannerNet)
    (t : String) (p : Nat) (e : ServiceEntry)
    (hdb : List.lookup (toString p) db = some e)
    (hfail : net.connect t p = false ∨ net.recv t p (net.sendOk t p) = none) :
    detect_service db net t p =
      { port := p, service := e.service, description := e.description,
        banner := none } := by
  have hgb : grab_banner net t p = none := by
    unfold grab_banner
    rcases hfail with hc | hr
    · rw [hc]
      rfl
    · cases hc : net.connect t p
      · rfl
      · rw [hr]
        rfl
  rw [detect_service_of_no_banner db net t p hgb, hdb]

/-- Witness for the amended C5: a failing connect against a table-known port
keeps the table's values with no banner. -/
theorem table_values_kept_on_probe_failure_witness :
    detect_service sshTableDb noConnectNet "127.0.0.1" 22 =
      { port := 22, service := "SSH", description := "Secure Shell",
        banner := none } :=
  table_values_kept_on_probe_failure sshTableDb noConnectNet "127.0.0.1" 22
    ⟨"SSH", "Secure Shell"⟩ (by decide) (Or.inl rfl)

/-- C6: the reclassification markers are tested on the lowercased banner by
substring containment in the fixed order ssh / http-or-html / ftp / smtp /
mysql, the first match fixing the final service name; and a shell-protocol
banner on a port absent from the table overrides the "Unknown" default. -/
theorem reclassification_first_match (db : ServicesDb) (net : BannerNet)
    (t : String) (p : Nat) (b : String) (h : grab_banner net t p = some b) :
    ((str_in "ssh" (py_lower b) = true →
        (detect_service db net t p).service = "SSH") ∧
     (str_in "ssh" (py_lower b) = false →
        (str_in "http" (py_lower b) || str_in "html" (py_lower b)) = true →
        (detect_service db net t p).service = "HTTP") ∧
     (str_in "ssh" (py_lower b) = false → str_in "http" (py_lower b) = false →
        str_in "html" (py_lower b) = false → str_in "ftp" (py_lower b) = true →
        (detect_service db net t p).service = "FTP") ∧
     (str_in "ssh" (py_lower b) = false → str_in "http" (py_lower b) = false →
        str_in "html" (py_lower b) = false → str_in "ftp" (py_lower b) = false →
        str_in "smtp" (py_lower b) = true →
        (detect_service db net t p).service = "SMTP") ∧
     (str_in "ssh" (py_lower b) = false → str_in "http" (py_lower b) = false →
        str_in "html" (py_lower b) = false → str_in "ftp" (py_lower b) = false →
        str_in "smtp" (py_lower b) = false →
        str_in "mysql" (py_lower b) = true →
        (detect_service db net t p).service = "MySQL")) ∧
    (List.lookup (toString p) db = none → str_in "ssh" (py_lower b) = true →
      detect_service db net t p =
        { port := p, service := "SSH", description := "",
          banner := some b }) := by
  rw [detect_service_of_banner db net t p b h]
  refine ⟨⟨?_, ?_, ?_, ?_, ?_⟩, ?_⟩
  · intro h1
    simp only [h1, if_true]
  · intro h1 h2
    simp only [h1, h2, Bool.false_eq_true, if_false, if_true]
  · intro h1 h2 h3 h4
    simp only [h1, h2, h3, h4, Bool.or_self, Bool.false_eq_true, if_false,
      if_true]
  · intro h1 h2 h3 h4 h5
    simp only [h1, h2, h3, h4, h5, Bool.or_self, Bool.false_eq_true, if_false,
      if_true]
  · intro h1 h2 h3 h4 h5 h6
    simp only [h1, h2, h3, h4, h5, h6, Bool.or_self, Bool.false_eq_true,
      if_false, if_true]
  · intro hdb h1
    simp only [hdb, h1, if_true]

/-- Witness for C6: a shell-protocol greeting on a port absent from the table
yields the shell-protocol service name. -/
theorem reclassification_first_match_witness :
    detect_service [] sshBannerNet "127.0.0.1" 2222 =
      { port := 2222, service := "SSH", description := "",
        banner := some "SSH-2.0-OpenSSH" } :=
  (reclassification_first_match [] sshBannerNet "127.0.0.1" 2222
    "SSH-2.0-OpenSSH" (by decide)).2 (by decide) (by decide)

/-- C7: reclassification only ever overwrites `service`: the `description` is
always the table-derived one whatever the banner, and a banner matching no
marker leaves the table-derived name unchanged. -/
theorem reclassification_frame (db : ServicesDb) (net : BannerNet)
    (t : String) (p : Nat) :
    ((detect_service db net t p).description =
      match List.lookup (toString p) db with
      | some e => e.description
      | none => "") ∧
    (∀ b, grab_banner net t p = some b →
      str_in "ssh" (py_lower b) = false → str_in "http" (py_lower b) = false →
      str_in "html" (py_lower b) = false → str_in "ftp" (py_lower b) = false →
      str_in "smtp" (py_lower b) = false →
      str_in "mysql" (py_lower b) = false →
      (detect_service db net t p).service =
        match List.lookup (toString p) db with
        | some e => e.service
        | none => "Unknown") := by
  constructor
  · cases hgb : grab_banner net t p with
    | none =>
      rw [detect_service_of_no_banner db net t p hgb]
      cases List.lookup (toString p) db <;> rfl
    | some b =>
      rw [detect_service_of_banner db net t p b hgb]
      simp only
      split
      · cases List.lookup (toString p) db <;> rfl
      split
      · cases List.lookup (toString p) db <;> rfl
      split
      · cases List.lookup (toString p) db <;> rfl
      split
      · cases List.lookup (toString p) db <;> rfl
      split
      · cases List.lookup (toString p) db <;> rfl
      cases List.lookup (toString p) db <;> rfl
  · intro b hgb h1 h2 h3 h4 h5 h6
    rw [detect_service_of_banner db net t p b hgb]
    simp only [h1, h2, h3, h4, h5, h6, Bool.or_self, Bool.false_eq_true,
      if_false]
    cases List.lookup (toString p) db <;> rfl

/-- Witness for C7: a markerless banner against a table-known port leaves the
table's description and name intact. -/
theorem reclassification_frame_witness :
    (detect_service sshTableDb plainBannerNet "127.0.0.1" 22).description =
      "Secure Shell" ∧
    (detect_service sshTableDb plainBannerNet "127.0.0.1" 22).service =
      "SSH" := by
  constructor
  · have h := (reclassification_frame sshTableDb plainBannerNet
      "127.0.0.1" 22).1
    simpa using h
  · have h := (reclassification_frame sshTableDb plainBannerNet
      "127.0.0.1" 22).2 "220 service ready" (by decide) (by decide)
      (by decide) (by decide) (by decide) (by decide) (by decide)
    simpa using h

/-- C8: when the external table resource is absent, loading falls back to the
built-in default table, which holds exactly the sixteen well-known ports
21, 22, 23, 25, 53, 80, 110, 143, 443, 3306, 3389, 5432, 6379, 8080, 8443 and
27017 with their service names. -/
theorem default_table_fallback :
    _load_services_db none = _get_default_services ∧
    _get_default_services.map Prod.fst =
      ["21", "22", "23", "25", "53", "80", "110", "143", "443", "3306",
       "3389", "5432", "6379", "8080", "8443", "27017"] ∧
    _get_default_services.length = 16 ∧
    _get_default_services.map (fun kv => kv.2.service) =
      ["FTP", "SSH", "Telnet", "SMTP", "DNS", "HTTP", "POP3", "IMAP",
       "HTTPS", "MySQL", "RDP", "PostgreSQL", "Redis", "HTTP-Proxy",
       "HTTPS-Alt", "MongoDB"] := by
  refine ⟨rfl, by decide, rfl, by decide⟩

/-- C9: `grab_banner` returns `none` or a non-empty banner, never the empty
string, so the `banner` field of a ServiceRecord is never the empty string. -/
theorem grab_banner_never_empty (net : BannerNet) (t : String) (p : Nat) :
    (grab_banner net t p = none ∨
      ∃ b, grab_banner net t p = some b ∧ b ≠ "") ∧
    ∀ db : ServicesDb, (detect_service db net t p).banner ≠ some "" := by
  constructor
  · cases hgb : grab_banner net t p with
    | none => exact Or.inl rfl
    | some b => exact Or.inr ⟨b, rfl, grab_banner_ne_empty net t p b hgb⟩
  · intro db
    cases hgb : grab_banner net t p with
    | none =>
      rw [detect_service_of_no_banner db net t p hgb]
      cases List.lookup (toString p) db <;> simp
    | some b =>
      rw [detect_service_banner_eq db net t p b hgb]
      intro hb
      exact grab_banner_ne_empty net t p b hgb (Option.some.inj hb)

/-- Witness for C9 at a concrete probe: the stored banner is not the empty
string. -/
theorem grab_banner_never_empty_witness :
    (detect_service sshTableDb sshBannerNet "127.0.0.1" 2222).banner ≠
      some "" :=
  (grab_banner_never_empty sshBannerNet "127.0.0.1" 2222).2 sshTableDb

/-- C10: the hypertext marker matches on either of the two substrings, so a
banner whose lowercased text contains "html" but neither "ssh" nor "http" is
still reclassified to "HTTP". -/
theorem html_marker_reclassifies (db : ServicesDb) (net : BannerNet)
    (t : String) (p : Nat) (b : String) (h : grab_banner net t p = some b)
    (hhtml : str_in "html" (py_lower b) = true)
    (hssh : str_in "ssh" (py_lower b) = false)
    (hhttp : str_in "http" (py_lower b) = false) :
    (detect_service db net t p).service = "HTTP" := by
  rw [detect_service_of_banner db net t p b h]
  simp only [hssh, hhttp, hhtml, Bool.false_eq_true, if_false, Bool.or_true,
    if_true]

/-- Witness for C10: a pure-markup banner is classified as the web service. -/
theorem html_marker_reclassifies_witness :
    (detect_service [] htmlBannerNet "127.0.0.1" 8000).service = "HTTP" :=
  html_marker_reclassifies [] htmlBannerNet "127.0.0.1" 8000
    "<html><body>hi</body></html>" (by decide) (by decide) (by decide)
    (by decide)

end ServiceDetect
